import Mathlib

/-
  Verification of the Garmin synchronization engine (`app/garmin/sync.py`).

  The Python module is shallowly embedded below.  Python dates are modelled
  as `Int` (a day count), `datetime.timedelta(days = k)` as subtraction of
  `k`, JSON payloads as the inductive type `Json`, and Python exceptions as
  explicit `Except` / outcome values.  Remote calls are modelled by oracles
  (functions supplied as parameters) so that failures can be injected.
-/

/-! ### JSON values (untyped provider payloads) -/

inductive Json where
  | null : Json
  | num : Int → Json
  | str : String → Json
  | bool : Bool → Json
  | arr : List Json → Json
  | obj : List (String × Json) → Json
deriving Repr

/-- Python `d[k]` lookup on a dict represented as an insertion-ordered
    association list: the first binding of the key wins. -/
def dictGet (kvs : List (String × Json)) (k : String) : Option Json :=
  (kvs.find? (fun p => p.1 == k)).map (fun p => p.2)

/-- Python `x.get(k, d)`.  It succeeds only when `x` is a dict; on any other
    value the attribute access raises `AttributeError`, modelled as `none`
    (every caller below wraps the access in a bare `except` that discards
    the exception). -/
def pyGetD (j : Json) (k : String) (d : Json) : Option Json :=
  match j with
  | .obj kvs => some ((dictGet kvs k).getD d)
  | _ => none

/-- Python truthiness of a JSON value. -/
def truthy : Json → Bool
  | .null => false
  | .num n => n != 0
  | .str s => s.length != 0
  | .bool b => b
  | .arr l => l.length != 0
  | .obj l => l.length != 0

/-! ### Normalizers (sync.py lines 358-380)

The resting-heart-rate normalizer is, verbatim from the source:

    rhr_val = None
    try:
        if isinstance(rhr_raw, dict):
             mmap = rhr_raw.get('allMetrics', \x7b\x7d).get('metricsMap', \x7b\x7d)
             vals = mmap.get('WELLNESS_RESTING_HEART_RATE', [])
             if vals and isinstance(vals, list):
                 rhr_val = vals[0].get('value')
        elif isinstance(rhr_raw, (int, float)):
            rhr_val = rhr_raw
    except:
        pass

Every exception path and every fall-through path leaves `rhr_val = None`,
so the whole block is modelled as a total function into `Option Json`
where `none` is the Python `None` result.  Note that a Python `bool` is an
instance of `int`, so the scalar branch also passes booleans through. -/

def normalize_rhr (rhr_raw : Json) : Option Json :=
  match rhr_raw with
  | .obj _ =>
    match pyGetD rhr_raw "allMetrics" (.obj []) with
    | none => none
    | some am =>
      match pyGetD am "metricsMap" (.obj []) with
      | none => none
      | some mmap =>
        match pyGetD mmap "WELLNESS_RESTING_HEART_RATE" (.arr []) with
        | none => none
        | some vals =>
          -- `if vals and isinstance(vals, list)`; for a list, truthiness is
          -- nonemptiness, and a truthy non-list falls through to `None`.
          if truthy vals then
            match vals with
            | .arr (v0 :: _) =>
              match v0 with
              | .obj kvs => dictGet kvs "value"
              | _ => none  -- `vals[0].get` raises AttributeError, swallowed
            | _ => none
          else none
  | .num n => some (.num n)
  | .bool b => some (.bool b)
  | _ => none

/-- Stress normalizer (sync.py lines 372-380):

    stress_val = None
    try:
        if isinstance(stress_raw, dict):
            stress_val = stress_raw.get('avgStressLevel')
        elif isinstance(stress_raw, (int, float)):
            stress_val = stress_raw
    except:
        pass
-/
def normalize_stress (stress_raw : Json) : Option Json :=
  match stress_raw with
  | .obj kvs => dictGet kvs "avgStressLevel"
  | .num n => some (.num n)
  | .bool b => some (.bool b)
  | _ => none

/-! ### robust_api_call (sync.py lines 21-40) -/

/-- The exception classes distinguished by `robust_api_call`. -/
inductive PyExc where
  | sslError : PyExc
  | connectionError : PyExc
  | chunkedEncodingError : PyExc
  | authError (msg : String) : PyExc
  | otherError (msg : String) : PyExc
deriving DecidableEq, Repr

/-- The first `except` clause of `robust_api_call` catches exactly
    `requests.exceptions.SSLError`, `requests.exceptions.ConnectionError`
    and `requests.exceptions.ChunkedEncodingError`. -/
def isTransient : PyExc → Bool
  | .sslError => true
  | .connectionError => true
  | .chunkedEncodingError => true
  | _ => false

/-- Observable trace of one `robust_api_call` invocation: the returned or
    raised value (`Except.ok none` models falling off the loop with no
    recorded exception, which returns Python `None`), the number of times
    the wrapped function was invoked, and the argument of every
    `time.sleep` call, in order. -/
structure CallTrace (α : Type) where
  result : Except PyExc (Option α)
  attempts : Nat
  sleeps : List Nat
deriving Repr

/-- The `for attempt in range(retries)` loop of `robust_api_call`.  The
    wrapped function is modelled as an oracle from the attempt index to an
    outcome.  A transient failure records the exception and sleeps
    `1 * (attempt + 1)` seconds; any other exception is re-raised at once. -/
def robust_go (f : Nat → Except PyExc α) :
    List Nat → Option PyExc → Nat → List Nat → CallTrace α
  | [], last, att, sl =>
    { result := match last with
                | some e => .error e
                | none => .ok none
      attempts := att, sleeps := sl }
  | i :: rest, _last, att, sl =>
    match f i with
    | .ok a => { result := .ok (some a), attempts := att + 1, sleeps := sl }
    | .error e =>
      if isTransient e then
        robust_go f rest (some e) (att + 1) (sl ++ [1 * (i + 1)])
      else
        { result := .error e, attempts := att + 1, sleeps := sl }

/-- `robust_api_call(func, *args, retries=retries)`. -/
def robust_api_call (f : Nat → Except PyExc α) (retries : Nat := 3) : CallTrace α :=
  robust_go f (List.range retries) none 0 []

/-! ### Sync window planning (sync.py lines 157-174) -/

/-- The scope computed in step 2 of `sync_all_garmin_data_for_user`:
    `is_initial_sync`, `start_date`, `daily_start_date`, `end_date`. -/
structure SyncWindow where
  is_initial_sync : Bool
  start_date : Int
  daily_start_date : Int
  end_date : Int
deriving DecidableEq, Repr

/-- Lines 157-174.  `last_synced` is the parsed watermark (`none` when the
    goals column holds none or parsing failed).  A Python `date` object is
    always truthy, so `if last_synced and not force_resync` tests exactly
    `last_synced` being present and `force_resync` being false. -/
def plan_window (today : Int) (last_synced : Option Int) (force_resync : Bool) :
    SyncWindow :=
  match last_synced, force_resync with
  | some d, false =>
    -- Incremental sync: start = last_synced - 3 days, daily start equal.
    { is_initial_sync := false, start_date := d - 3, daily_start_date := d - 3,
      end_date := today }
  | _, _ =>
    -- Initial sync or forced resync: 5 years of activities, 30 days of
    -- daily data.
    { is_initial_sync := true, start_date := today - 1825,
      daily_start_date := today - 30, end_date := today }

/-! ### Activity pagination (sync.py lines 181-229)

The pagination loop requests batches of `limit = 100` activities starting
at offsets 0, 100, 200, ... .  An activity summary only matters to the
loop through its `startTimeLocal` date, modelled directly as an optional
day number (`none` models a missing or empty `startTimeLocal`, which the
loop skips with `continue`). -/

structure Activity where
  startTimeLocal : Option Int
deriving DecidableEq, Repr

/-- The in-window filter of the pagination loop: `act_date >= start_date`
    and `act_date <= end_date` (an activity without a date never passes). -/
def in_window (start_date end_date : Int) (act : Activity) : Bool :=
  match act.startTimeLocal with
  | some d => decide (start_date ≤ d) && decide (d ≤ end_date)
  | none => false

/-- The `else` branch of the date check (lines 216-223).  The source sets
    `stop_fetching = True` for every activity strictly older than
    `start_date`; the nested `if act_date < (start_date - timedelta(days=7))`
    merely assigns `True` to a flag that is already `True`, so the 7-day
    margin has no effect on the computed flag. -/
def older_than_start (start_date : Int) (act : Activity) : Bool :=
  match act.startTimeLocal with
  | some d => decide (d < start_date)
  | none => false

/-- The `while True` pagination loop, with fuel for the (theoretically
    unbounded) iteration count.  `get_activities` is the provider oracle
    from a start offset and a limit to a batch; batch fetches are modelled
    as always returning (the post-retry failure path, lines 191-198, is
    modelled in the orchestrator embedding below).  Returns the collected
    `raw_activities` together with the list of requested start offsets. -/
def fetch_activities_loop (get_activities : Nat → Nat → List Activity)
    (start_date end_date : Int) (limit : Nat) :
    Nat → Nat → List Activity → List Nat → List Activity × List Nat
  | 0, _, acc, req => (acc, req)
  | fuel + 1, start_idx, acc, req =>
    let batch := get_activities start_idx limit
    let req := req ++ [start_idx]
    if batch.isEmpty then (acc, req)
    else
      let valid_batch := batch.filter (in_window start_date end_date)
      let stop_fetching := batch.any (older_than_start start_date)
      let acc := acc ++ valid_batch
      if stop_fetching || decide (batch.length < limit) then (acc, req)
      else fetch_activities_loop get_activities start_date end_date limit
        fuel (start_idx + limit) acc req

/-- Entry into the pagination loop with the hard-coded
    `start_idx = 0` and `limit = 100` of the source. -/
def fetch_activities (get_activities : Nat → Nat → List Activity)
    (start_date end_date : Int) (fuel : Nat) : List Activity × List Nat :=
  fetch_activities_loop get_activities start_date end_date 100 fuel 0 [] []

/-! ### Stage outcomes and the daily-metrics loop (sync.py lines 311-419) -/

/-- Outcome of one remote interaction: it either completes or raises an
    exception carrying `str(e) = msg`. -/
inductive StageOutcome where
  | ok : StageOutcome
  | raise (msg : String) : StageOutcome
deriving DecidableEq, Repr

/-- The calendar days visited by `while current_day <= end_date`, starting
    at `daily_start_date`. -/
def day_range (lo hi : Int) : List Int :=
  (List.range (hi + 1 - lo).toNat).map (fun k => lo + k)

/-- The daily-metrics loop body (lines 329-405) over an explicit list of
    days.  A day is skipped with no remote call when `is_initial_sync` and
    the date is in the stored-dates set (lines 339-343); otherwise the
    per-day fetches run, and an exception is caught by the per-day
    `except` (line 402), which logs and moves on.  Returns the days for
    which remote calls were made and the sublist of those whose fetch
    raised. -/
def daily_loop (is_initial_sync : Bool) (existing_dates : Int → Bool)
    (day_fetch : Int → StageOutcome) : List Int → List Int × List Int
  | [] => ([], [])
  | d :: rest =>
    if is_initial_sync && existing_dates d then
      daily_loop is_initial_sync existing_dates day_fetch rest
    else
      let (fetched, failed) := daily_loop is_initial_sync existing_dates day_fetch rest
      match day_fetch d with
      | .ok => (d :: fetched, failed)
      | .raise _ => (d :: fetched, d :: failed)

/-- The daily-metrics stage over the window `[lo, hi]`. -/
def daily_stage (is_initial_sync : Bool) (existing_dates : Int → Bool)
    (day_fetch : Int → StageOutcome) (lo hi : Int) : List Int × List Int :=
  daily_loop is_initial_sync existing_dates day_fetch (day_range lo hi)

/-- The activities stage seen at page-fetch granularity: each element of
    the list is the outcome of one `robust_api_call(garmin_api.get_activities, ...)`.
    A raised fetch is caught at line 193 and breaks the pagination loop
    (lines 194-198); no exception escapes the stage.  Returns the number
    of pages ingested before the stop and the logged fetch error, if any. -/
def activities_stage : List StageOutcome → Nat × Option String
  | [] => (0, none)
  | .ok :: rest =>
    let (n, e) := activities_stage rest
    (n + 1, e)
  | .raise msg :: _ => (0, some msg)

/-! ### The orchestrator (sync.py lines 114-465)

`sync_all_garmin_data_for_user` is embedded as a function of the injected
environment: the watermark and flags that determine the window, the
outcome of opening the provider session, the per-page and per-day fetch
outcomes, and the outcome of the finalization step.  Database writes of
the status fields themselves are modelled as always succeeding (the
claims under verification inject failures only into the remote stages).
Progress bookkeeping in the `goals` column is modelled separately (see
`progress_trace` and `update_progress` below). -/

structure SyncInputs where
  /-- `days_back` parameter (line 114).  It is accepted and never read by
      the function body. -/
  days_back : Nat
  force_resync : Bool
  /-- `date.today()` at line 158. -/
  today : Int
  /-- The parsed `garmin_last_synced` watermark (lines 128-136). -/
  last_synced : Option Int
  /-- The stored-dates set fetched at lines 315-320 (empty when that
      lookup failed). -/
  existing_dates : Int → Bool
  /-- Outcome of `init_garmin_api_for_user` as control flow: an exception
      escaping it propagates to the top-level handler. -/
  session_open : StageOutcome
  /-- When `session_open = ok`: whether a session object (rather than
      `None`) was returned. -/
  session_ok : Bool
  /-- Outcomes of the successive activity page fetches. -/
  pages : List StageOutcome
  /-- The earliest `startTimeLocal` date among the fetched activities
      (`none` when `raw_activities` is empty), used by the daily-window
      adjustment at lines 236-248. -/
  oldest_activity : Option Int
  /-- Outcome of the per-day daily-metrics fetches. -/
  day_fetch : Int → StageOutcome
  /-- Outcome of the finalization step (max-metrics aside, the watermark
      rewrite and final status write at lines 434-456); an exception here
      propagates to the top-level handler. -/
  finalize : StageOutcome

/-- The status slice of the user record mutated by the orchestrator. -/
structure OrchState where
  garmin_sync_status : String
  garmin_last_sync_error : Option String
deriving DecidableEq, Repr

/-- Everything observable about one run. -/
structure SyncOutcome where
  final : OrchState
  /-- The exception caught by the top-level `except` (line 460), if the
      run reached it. -/
  caught : Option String
  window : Option SyncWindow
  pages_ok : Nat
  page_error : Option String
  days_fetched : List Int
  days_failed : List Int
deriving Repr

/-- `sync_all_garmin_data_for_user` (lines 114-465). -/
def sync_all_garmin_data_for_user (inp : SyncInputs) (st : OrchState) : SyncOutcome :=
  -- Lines 138-144: persist status "syncing" before anything can fail.
  let st := { st with garmin_sync_status := "syncing" }
  match inp.session_open with
  | .raise msg =>
    -- An exception escaping session setup reaches the top-level handler
    -- (lines 460-465): status "error", error text str(e).
    { final := { st with garmin_sync_status := "error",
                         garmin_last_sync_error := some msg }
      caught := some msg, window := none, pages_ok := 0, page_error := none
      days_fetched := [], days_failed := [] }
  | .ok =>
    if !inp.session_ok then
      -- Lines 147-153: no session available, immediate terminal error.
      { final := { st with garmin_sync_status := "error",
                           garmin_last_sync_error :=
                             some "Failed to initialize Garmin API session. Please reconnect." }
        caught := none, window := none, pages_ok := 0, page_error := none
        days_fetched := [], days_failed := [] }
    else
      let w := plan_window inp.today inp.last_synced inp.force_resync
      -- Lines 178-309: the activities stage; internal failures are caught.
      let acts := activities_stage inp.pages
      -- Lines 236-248: pull the daily start forward to the oldest fetched
      -- activity during an initial or forced run.
      let daily_start :=
        if w.is_initial_sync then
          match inp.oldest_activity with
          | some od => if w.daily_start_date < od then od else w.daily_start_date
          | none => w.daily_start_date
        else w.daily_start_date
      -- Lines 311-419: the daily-metrics stage; per-day failures are caught.
      let days :=
        daily_stage w.is_initial_sync inp.existing_dates inp.day_fetch
          daily_start w.end_date
      match inp.finalize with
      | .raise msg =>
        -- Propagates to the top-level handler (lines 460-465).
        { final := { st with garmin_sync_status := "error",
                             garmin_last_sync_error := some msg }
          caught := some msg, window := some w, pages_ok := acts.1
          page_error := acts.2, days_fetched := days.1, days_failed := days.2 }
      | .ok =>
        -- Lines 451-456: terminal status "synced".
        { final := { st with garmin_sync_status := "synced" }
          caught := none, window := some w, pages_ok := acts.1
          page_error := acts.2, days_fetched := days.1, days_failed := days.2 }

/-! ### Progress reporting (sync.py lines 295-298, 329-335, and milestones)

The value written for activity `i` of `total` is
`10 + int((i / total) * 40)`.  Python evaluates `i / total` in IEEE double
precision and truncates with `int`; for every pair with `0 <= i < total`
that a run of this code can produce, that value coincides with the exact
floor `10 + 40 * i / total` (the float product never crosses an integer
boundary in this range), so the embedding uses exact natural division.
The same applies to the daily-stage value `50 + int((dp / total_days) * 40)`. -/

/-- The values passed to `update_progress` inside the activity loop: one
    write per index `i` with `total_activities > 0 and i % 5 == 0`
    (lines 296-298). -/
def activity_progress (total : Nat) : List Nat :=
  ((List.range total).filter (fun i => decide (0 < total) && i % 5 == 0)).map
    (fun i => 10 + 40 * i / total)

/-- The values passed to `update_progress` inside the daily loop: one
    write per day counter `dp` with `total_days > 0 and dp % 3 == 0`,
    emitted before the skip check, so skipped days also report
    (lines 332-335). -/
def daily_progress (total_days : Nat) : List Nat :=
  ((List.range total_days).filter (fun dp => decide (0 < total_days) && dp % 3 == 0)).map
    (fun dp => 50 + 40 * dp / total_days)

/-- The full sequence of values passed to `update_progress` in one run in
    which every stage succeeds: 5 after login (line 155), 10 before the
    activity loop (line 177), the activity-loop writes, 50 before the
    daily loop (line 312), the daily-loop writes, then 90, 95 and 100
    (lines 422, 444, 452).  The direct `goals` write of 95 at line 440
    does not go through `update_progress`. -/
def progress_trace (total_activities total_days : Nat) : List Nat :=
  [5, 10] ++ activity_progress total_activities ++ [50] ++
    daily_progress total_days ++ [90, 95, 100]

/-! ### Keyed upserts (sync.py lines 300-305, 407-419)

A table with a unique constraint on the conflict columns is modelled as a
map from the conflict key to the stored row; `upsert` with
`on_conflict = key` replaces the row at that key.  The source passes
`on_conflict="activity_id"` for `garmin_activities` and
`on_conflict="user_id, date"` for `garmin_daily` and `garmin_sleep`. -/

def Table (K Row : Type) := K → Option Row

/-- The row stored at a key. -/
def Table.get (t : Table K Row) (k : K) : Option Row := t k

/-- Upsert of a single row: the row replaces whatever is stored at its
    conflict key. -/
def upsert_row [DecidableEq K] (key : Row → K) (t : Table K Row) (r : Row) :
    Table K Row :=
  fun k => if k = key r then some r else t k

/-- Upsert of a batch, in order (the source flushes in batches of 20 and
    weekly batches of 7; splitting a list into consecutive batches does not
    change the fold). -/
def upsert_batch [DecidableEq K] (key : Row → K) (t : Table K Row)
    (batch : List Row) : Table K Row :=
  batch.foldl (upsert_row key) t

/-- A `garmin_activities` row as built at lines 275-292: the conflict
    column, the `user_id` column, and the rest of the document (summary
    fields, raw payload, details, `synced_at`) abstracted as one value. -/
structure ActivityRow where
  user_id : String
  activity_id : String
  doc : Json
deriving Repr

/-- The conflict key the source passes for `garmin_activities`
    (lines 301 and 305): `on_conflict="activity_id"`. -/
def activity_conflict_key (r : ActivityRow) : String := r.activity_id

/-- The conflict key the specification asserts for activity upserts:
    the pair `(user_id, external_id)`. -/
def spec_activity_key (r : ActivityRow) : String × String :=
  (r.user_id, r.activity_id)

/-- A `garmin_daily` or `garmin_sleep` row as built at lines 382-400. -/
structure DailyRow where
  user_id : String
  date : Int
  doc : Json
deriving Repr

/-- The conflict key the source passes for `garmin_daily` and
    `garmin_sleep` (lines 409-419): `on_conflict="user_id, date"`. -/
def daily_conflict_key (r : DailyRow) : String × Int := (r.user_id, r.date)

/-! ### update_progress (sync.py lines 99-112) and the goals column -/

/-- Python dict assignment `d[k] = v` on an insertion-ordered association
    list: an existing binding is updated in place, a new one is appended. -/
def setKey (kvs : List (String × Json)) (k : String) (v : Json) :
    List (String × Json) :=
  if kvs.any (fun p => p.1 == k) then
    kvs.map (fun p => if p.1 == k then (k, v) else p)
  else kvs ++ [(k, v)]

/-- The columns of a `users` row relevant to `update_progress`: the
    `goals` JSONB column (nullable), the two status columns, and all the
    remaining columns abstracted as one opaque value. -/
structure UserRow where
  goals : Option (List (String × Json))
  garmin_sync_status : Option String
  garmin_last_sync_error : Option String
  rest : Json
deriving Repr

/-- `update_progress(user_id, progress)` (lines 99-112).  `db` is the
    stored row for the user (`none` when `res.data` is empty).  `read_ok`
    and `write_ok` inject failures of the select and of the update; both
    are caught by the `except` at line 111, which logs and returns,
    leaving the stored state untouched.  The function itself never
    raises. -/
def update_progress (read_ok write_ok : Bool) (db : Option UserRow)
    (progress : Int) : Option UserRow :=
  if !read_ok then db
  else
    match db with
    | none => db
    | some row =>
      -- `goals = res.data[0].get("goals") or \x7b\x7d`
      let goals := row.goals.getD []
      let goals := setKey goals "sync_progress" (.num progress)
      if !write_ok then db
      else some { row with goals := some goals }

/-! ### The sync mode as the specification describes it

The specification (section 4.4) distinguishes three modes.  This
definition follows the wording of the spec, not the source (the source
only computes the boolean `is_initial_sync`); it is used to compare the
skip condition of the daily loop against the mode the spec names. -/

inductive SpecMode where
  | initial : SpecMode
  | incremental : SpecMode
  | forced : SpecMode
deriving DecidableEq, Repr

/-- Modelled from the spec: "If `force_resync` or `last_synced_at` is
    null: `mode = initial` (or `forced` if a prior sync exists) ...
    Else: `mode = incremental`". -/
def spec_mode (last_synced : Option Int) (force_resync : Bool) : SpecMode :=
  match last_synced, force_resync with
  | none, _ => .initial
  | some _, true => .forced
  | some _, false => .incremental

/-! ## Claims -/

/-- C2 counterexample.  The claim asserts that the resting-heart-rate
    normalizer performs a named-field lookup on a flat object, so that
    `\x7b"restingHeartRate": 45\x7d` yields `45`.  The source (lines 359-370)
    has no named-field branch: on that input the dict branch looks up
    `allMetrics`, finds nothing, and falls through, so the normalizer
    yields `None`, not `45`. -/
theorem normalize_rhr_named_field_counterexample :
    normalize_rhr (.obj [("restingHeartRate", .num 45)]) = none ∧
    normalize_rhr (.obj [("restingHeartRate", .num 45)]) ≠ some (.num 45) :=
  ⟨rfl, fun h => Option.noConfusion h⟩

/-- C2 amended.  The resting-heart-rate normalizer tries scalar
    passthrough and the nested `allMetrics.metricsMap` lookup only (a flat
    named-field object yields `null`); the stress normalizer tries scalar
    passthrough and the flat `avgStressLevel` field only.  On the inputs
    named by the claim: resting-HR `42` yields `42`, the nested shape
    yields `47`, while `\x7b"restingHeartRate": 45\x7d` and
    `\x7b"unknownShape": 1\x7d` yield `null`; no input raises (both
    normalizers are total functions). -/
theorem normalize_rhr_stress_amended :
    normalize_rhr (.num 42) = some (.num 42) ∧
    normalize_rhr (.obj [("restingHeartRate", .num 45)]) = none ∧
    normalize_rhr (.obj [("allMetrics", .obj [("metricsMap", .obj
      [("WELLNESS_RESTING_HEART_RATE", .arr [.obj [("value", .num 47)]])])])]) =
      some (.num 47) ∧
    normalize_rhr (.obj [("unknownShape", .num 1)]) = none ∧
    normalize_stress (.num 42) = some (.num 42) ∧
    normalize_stress (.obj [("avgStressLevel", .num 33)]) = some (.num 33) ∧
    normalize_stress (.obj [("unknownShape", .num 1)]) = none :=
  ⟨rfl, rfl, rfl, rfl, rfl, rfl, rfl⟩

/-- C5: window planning.  With a watermark `D` and `force_resync` false
    the run is incremental with activity start `D - 3`, daily start equal
    to it, and end `today`; with a null watermark, or with `force_resync`
    true, the run is initial/forced with activity start `today - 1825`,
    daily start `today - 30`, and end `today`. -/
theorem plan_window_correct (today D : Int) :
    plan_window today (some D) false =
      { is_initial_sync := false, start_date := D - 3,
        daily_start_date := D - 3, end_date := today } ∧
    (∀ f : Bool, plan_window today none f =
      { is_initial_sync := true, start_date := today - 1825,
        daily_start_date := today - 30, end_date := today }) ∧
    (∀ ls : Option Int, plan_window today ls true =
      { is_initial_sync := true, start_date := today - 1825,
        daily_start_date := today - 30, end_date := today }) :=
  ⟨rfl, fun _ => rfl, fun ls => by cases ls <;> rfl⟩

/-- C9: the `days_back` parameter has no influence.  Two invocations of
    the orchestrator that differ only in `days_back` produce the same
    outcome: same window, same pages requested, same days fetched, and
    the same final state. -/
theorem days_back_no_influence (inp : SyncInputs) (st : OrchState) (d : Nat) :
    sync_all_garmin_data_for_user { inp with days_back := d } st =
      sync_all_garmin_data_for_user inp st :=
  rfl

/-- Helper: when every attempt raises a transient error, the retry loop
    walks its whole index list, sleeping `index + 1` after each failure,
    and ends holding the error of the last index. -/
theorem robust_go_all_transient {α : Type} (f : Nat → Except PyExc α)
    (errs : Nat → PyExc) (hf : ∀ i, f i = .error (errs i))
    (ht : ∀ i, isTransient (errs i) = true) :
    ∀ (xs : List Nat) (x : Nat) (last : Option PyExc) (att : Nat) (sl : List Nat),
      robust_go f (xs ++ [x]) last att sl =
        { result := .error (errs x), attempts := att + xs.length + 1,
          sleeps := sl ++ (xs ++ [x]).map (fun a => a + 1) } := by
  intro xs
  induction xs with
  | nil =>
    intro x last att sl
    simp [robust_go, hf x, ht x]
  | cons y xs ih =>
    intro x last att sl
    rw [List.cons_append]
    show robust_go f (y :: (xs ++ [x])) last att sl = _
    rw [robust_go, hf y]
    simp only [ht y, if_true]
    rw [ih x (some (errs y)) (att + 1) (sl ++ [1 * (y + 1)])]
    simp [List.length_cons, List.append_assoc]
    omega

/-- C4: retry bound of `robust_api_call`.  A call whose every attempt
    raises a transient error is attempted exactly `N` times, with a sleep
    of `(a + 1) * base_delay` seconds (base delay 1) recorded after
    attempt index `a` — in particular the sleep between attempts `a` and
    `a + 1` is `(a + 1) * 1` — and then the last-seen error is raised.  A
    call raising a non-transient error is attempted exactly once and the
    error propagates immediately with no sleep. -/
theorem robust_api_call_retry_bound {α : Type} (N : Nat) (hN : 1 ≤ N)
    (f : Nat → Except PyExc α) (errs : Nat → PyExc)
    (hf : ∀ i, f i = .error (errs i)) (ht : ∀ i, isTransient (errs i) = true)
    (g : Nat → Except PyExc α) (e : PyExc) (hg : ∀ i, g i = .error e)
    (hfatal : isTransient e = false) :
    (robust_api_call f N).attempts = N ∧
    (robust_api_call f N).result = .error (errs (N - 1)) ∧
    (robust_api_call f N).sleeps = (List.range N).map (fun a => a + 1) ∧
    robust_api_call g N = { result := .error e, attempts := 1, sleeps := [] } := by
  obtain ⟨M, rfl⟩ : ∃ M, N = M + 1 := ⟨N - 1, by omega⟩
  have hmain := robust_go_all_transient f errs hf ht (List.range M) M none 0 []
  rw [← List.range_succ] at hmain
  have hg0 : robust_api_call g (M + 1) =
      { result := .error e, attempts := 1, sleeps := [] } := by
    rw [robust_api_call, List.range_succ_eq_map]
    rw [robust_go, hg 0]
    simp [hfatal]
  refine ⟨?_, ?_, ?_, hg0⟩
  · rw [robust_api_call, hmain]
    simp
  · rw [robust_api_call, hmain]
    simp
  · rw [robust_api_call, hmain]
    simp [Nat.succ_eq_add_one]

/-- C4 witness: at `N = 3` with a permanently failing SSL handshake the
    call is attempted three times, sleeps 1 then 2 then 3 seconds, and
    raises the SSL error; an authentication error is raised after a
    single attempt. -/
theorem robust_api_call_retry_bound_witness :
    (robust_api_call (fun _ => (.error .sslError : Except PyExc Unit)) 3).attempts = 3 ∧
    (robust_api_call (fun _ => (.error .sslError : Except PyExc Unit)) 3).result =
      .error .sslError ∧
    (robust_api_call (fun _ => (.error .sslError : Except PyExc Unit)) 3).sleeps =
      [1, 2, 3] ∧
    robust_api_call (fun _ => (.error (.authError "bad credentials") : Except PyExc Unit)) 3 =
      { result := .error (.authError "bad credentials"), attempts := 1, sleeps := [] } := by
  have h := robust_api_call_retry_bound 3 (by decide)
    (fun _ => (.error .sslError : Except PyExc Unit)) (fun _ => .sslError)
    (fun _ => rfl) (fun _ => rfl)
    (fun _ => (.error (.authError "bad credentials") : Except PyExc Unit))
    (.authError "bad credentials") (fun _ => rfl) rfl
  exact ⟨h.1, h.2.1, by rw [h.2.2.1]; rfl, h.2.2.2⟩

/-- C1: terminal convergence.  For every injected environment — any
    combination of failures at session open, at any activity page fetch,
    at any daily-day fetch, or at finalize, which subsumes any single
    injected failure — the run ends with status "synced" or "error",
    never "syncing"; and whenever an exception reaches the top-level
    handler, the final status is "error" with
    `garmin_last_sync_error = str(exception)`, which is non-null. -/
theorem sync_terminal_convergence (inp : SyncInputs) (st : OrchState) :
    ((sync_all_garmin_data_for_user inp st).final.garmin_sync_status = "synced" ∨
      (sync_all_garmin_data_for_user inp st).final.garmin_sync_status = "error") ∧
    (sync_all_garmin_data_for_user inp st).final.garmin_sync_status ≠ "syncing" ∧
    (∀ msg, (sync_all_garmin_data_for_user inp st).caught = some msg →
      (sync_all_garmin_data_for_user inp st).final.garmin_sync_status = "error" ∧
      (sync_all_garmin_data_for_user inp st).final.garmin_last_sync_error = some msg) := by
  cases hso : inp.session_open with
  | raise msg =>
    refine ⟨Or.inr ?_, ?_, ?_⟩ <;>
      simp [sync_all_garmin_data_for_user, hso]
  | ok =>
    cases hok : inp.session_ok with
    | false =>
      refine ⟨Or.inr ?_, ?_, ?_⟩ <;>
        simp [sync_all_garmin_data_for_user, hso, hok]
    | true =>
      cases hfin : inp.finalize with
      | raise msg =>
        refine ⟨Or.inr ?_, ?_, ?_⟩ <;>
          simp [sync_all_garmin_data_for_user, hso, hok, hfin]
      | ok =>
        refine ⟨Or.inl ?_, ?_, ?_⟩ <;>
          simp [sync_all_garmin_data_for_user, hso, hok, hfin]

/-- C1 witness: a run whose finalize step raises "boom" while everything
    else succeeds ends with status "error" and the stringified exception
    recorded; a fully successful run ends with status "synced". -/
theorem sync_terminal_convergence_witness :
    (sync_all_garmin_data_for_user
      { days_back := 7, force_resync := false, today := 100,
        last_synced := some 95, existing_dates := fun _ => false,
        session_open := .ok, session_ok := true, pages := [.ok, .ok],
        oldest_activity := some 93, day_fetch := fun _ => .ok,
        finalize := .raise "boom" }
      { garmin_sync_status := "idle", garmin_last_sync_error := none }).final.garmin_sync_status = "error" ∧
    (sync_all_garmin_data_for_user
      { days_back := 7, force_resync := false, today := 100,
        last_synced := some 95, existing_dates := fun _ => false,
        session_open := .ok, session_ok := true, pages := [.ok, .ok],
        oldest_activity := some 93, day_fetch := fun _ => .ok,
        finalize := .raise "boom" }
      { garmin_sync_status := "idle", garmin_last_sync_error := none }).final.garmin_last_sync_error = some "boom" := by
  have h := sync_terminal_convergence
    { days_back := 7, force_resync := false, today := 100,
      last_synced := some 95, existing_dates := fun _ => false,
      session_open := .ok, session_ok := true, pages := [.ok, .ok],
      oldest_activity := some 93, day_fetch := fun _ => .ok,
      finalize := .raise "boom" }
    { garmin_sync_status := "idle", garmin_last_sync_error := none }
  exact h.2.2 "boom" rfl

/-- Helper: the days of the daily loop that incur remote calls are
    exactly the days that survive the skip test of lines 339-343. -/
theorem daily_loop_fetched (is_init : Bool) (existing : Int → Bool)
    (df : Int → StageOutcome) :
    ∀ l : List Int, (daily_loop is_init existing df l).1 =
      l.filter (fun d => !(is_init && existing d)) := by
  intro l
  induction l with
  | nil => rfl
  | cons d rest ih =>
    cases hskip : is_init && existing d with
    | true =>
      rw [daily_loop]
      simp only [hskip, List.filter_cons]
      simp [ih]
    | false =>
      rw [daily_loop]
      simp only [hskip, List.filter_cons]
      cases hdf : df d <;> simp [ih]

/-- C6 counterexample.  The claim asserts a day is skipped only when the
    mode is `initial` — not `forced`.  Take `today = 100`, a prior
    watermark `last_synced = 95`, and `force_resync = true`: the spec
    mode of this run is `forced`, yet the source sets
    `is_initial_sync = True` (line 171) and therefore skips day 80, which
    lies in the daily window `[70, 100]` and has a stored DailyRecord: no
    remote call is made for it. -/
theorem daily_skip_forced_counterexample :
    spec_mode (some 95) true = .forced ∧
    spec_mode (some 95) true ≠ .initial ∧
    (plan_window 100 (some 95) true).is_initial_sync = true ∧
    (80 : Int) ∈ day_range (plan_window 100 (some 95) true).daily_start_date
      (plan_window 100 (some 95) true).end_date ∧
    (80 : Int) ∉ (daily_stage (plan_window 100 (some 95) true).is_initial_sync
      (fun d => decide (d = 80)) (fun _ => .ok)
      (plan_window 100 (some 95) true).daily_start_date
      (plan_window 100 (some 95) true).end_date).1 := by
  refine ⟨rfl, by decide, rfl, by decide, by decide⟩

/-- C6 amended.  A day incurs no remote calls if and only if
    `is_initial_sync` is set — which covers both a first sync and a
    forced resync — and the date already has a stored DailyRecord; in
    particular an incremental run refetches every day of its window
    regardless of existing records. -/
theorem daily_skip_amended (is_init : Bool) (existing : Int → Bool)
    (df : Int → StageOutcome) (lo hi d : Int) :
    (d ∈ (daily_stage is_init existing df lo hi).1 ↔
      d ∈ day_range lo hi ∧ ¬(is_init = true ∧ existing d = true)) ∧
    (daily_stage false existing df lo hi).1 = day_range lo hi := by
  constructor
  · rw [daily_stage, daily_loop_fetched, List.mem_filter]
    cases is_init <;> cases hex : existing d <;> simp [hex]
  · rw [daily_stage, daily_loop_fetched]
    simp

/-- Helper: the pagination loop only ever appends to the list of
    requested offsets. -/
theorem fetch_loop_requested_extends (g : Nat → Nat → List Activity)
    (sd ed : Int) (limit : Nat) :
    ∀ (fuel si : Nat) (acc : List Activity) (req : List Nat),
      ∃ t, (fetch_activities_loop g sd ed limit fuel si acc req).2 = req ++ t := by
  intro fuel
  induction fuel with
  | zero =>
    intro si acc req
    exact ⟨[], by simp [fetch_activities_loop]⟩
  | succ n ih =>
    intro si acc req
    simp only [fetch_activities_loop]
    split
    · exact ⟨[si], rfl⟩
    · split
      · exact ⟨[si], rfl⟩
      · obtain ⟨t, ht⟩ := ih (si + limit)
          (acc ++ (g si limit).filter (in_window sd ed)) (req ++ [si])
        exact ⟨si :: t, by rw [ht]; simp⟩

/-- Helper: with at least one unit of fuel, the offset at which the loop
    starts is always requested. -/
theorem fetch_loop_requested_head (g : Nat → Nat → List Activity)
    (sd ed : Int) (limit : Nat) (fuel si : Nat) (acc : List Activity)
    (req : List Nat) :
    ∃ t, (fetch_activities_loop g sd ed limit (fuel + 1) si acc req).2 =
      req ++ si :: t := by
  simp only [fetch_activities_loop]
  cases hempty : (g si limit).isEmpty with
  | true =>
    refine ⟨[], ?_⟩
    simp
  | false =>
    cases hstop : ((g si limit).any (older_than_start sd)
        || decide ((g si limit).length < limit)) with
    | true =>
      refine ⟨[], ?_⟩
      simp
    | false =>
      obtain ⟨t, ht⟩ := fetch_loop_requested_extends g sd ed limit fuel (si + limit)
        (acc ++ (g si limit).filter (in_window sd ed)) (req ++ [si])
      refine ⟨t, ?_⟩
      simp [ht]

/-- C3 counterexample.  The claim asserts that an entry older than
    `window.start` but within the 7-day safety margin does not by itself
    stop pagination.  Take `start = 100`, `end = 200` and a first page of
    exactly 100 entries, 99 dated 150 and one dated 99 — one day older
    than the window start, well inside the margin (99 is not older than
    `100 - 7 = 93`).  The source stops after that page: only offset 0 is
    ever requested, although the page is full and contains no entry
    strictly older than `start - 7`. -/
theorem pagination_margin_counterexample :
    (fetch_activities
      (fun si _ => if si = 0 then
          List.replicate 99 (Activity.mk (some 150)) ++ [Activity.mk (some 99)]
        else List.replicate 100 (Activity.mk (some 150))) 100 200 10).2 = [0] ∧
    (List.replicate 99 (Activity.mk (some 150)) ++ [Activity.mk (some 99)]).all
      (fun a => !(older_than_start (100 - 7) a)) = true ∧
    (List.replicate 99 (Activity.mk (some 150))
      ++ [Activity.mk (some 99)]).length = 100 := by
  refine ⟨by decide, by decide, by decide⟩

/-- C3 amended.  Pagination stops exactly when the page contains an entry
    strictly older than `window.start` (no 7-day margin: the nested
    margin test at lines 222-223 re-assigns a flag that the branch has
    already set) or when the page has fewer items than the page size; and
    the concrete scenario of the claim still holds: with page 3 (offset
    200) containing an entry dated `start - 10`, offsets 0, 100 and 200
    are requested and offset 300 never is. -/
theorem pagination_stop_amended :
    (∀ (g : Nat → Nat → List Activity) (sd ed : Int) (fuel si : Nat)
       (acc : List Activity) (req : List Nat),
       ((g si 100).any (older_than_start sd)
         || decide ((g si 100).length < 100)) = true →
       (fetch_activities_loop g sd ed 100 (fuel + 1) si acc req).2 = req ++ [si]) ∧
    (∀ (g : Nat → Nat → List Activity) (sd ed : Int) (fuel si : Nat)
       (acc : List Activity) (req : List Nat),
       (g si 100).any (older_than_start sd) = false →
       (g si 100).length = 100 →
       ∃ t, (fetch_activities_loop g sd ed 100 (fuel + 1 + 1) si acc req).2 =
         req ++ si :: (si + 100) :: t) ∧
    (fetch_activities
      (fun si _ => if si = 200 then
          List.replicate 99 (Activity.mk (some 150)) ++ [Activity.mk (some 90)]
        else List.replicate 100 (Activity.mk (some 150))) 100 200 10).2 = [0, 100, 200] := by
  refine ⟨?_, ?_, by decide⟩
  · intro g sd ed fuel si acc req hstop
    simp only [fetch_activities_loop]
    cases hempty : (g si 100).isEmpty with
    | true => simp
    | false => simp [hstop]
  · intro g sd ed fuel si acc req hold hlen
    have hne : (g si 100).isEmpty = false := by
      cases hg : g si 100 with
      | nil => rw [hg] at hlen; simp at hlen
      | cons a l => rfl
    rw [fetch_activities_loop]
    simp only [hne, hold, hlen]
    simp only [Bool.false_eq_true, lt_self_iff_false, decide_False,
      Bool.or_false, if_false]
    obtain ⟨t, ht⟩ := fetch_loop_requested_head g sd ed 100 fuel (si + 100)
      (acc ++ (g si 100).filter (in_window sd ed)) (req ++ [si])
    refine ⟨t, ?_⟩
    simpa using ht

/-- C3 amended witness: a full page whose entries are all dated 50, with
    `start = 100`, stops pagination immediately (only offset 0
    requested); a full page all dated 150 leads to offset 100 being
    requested next. -/
theorem pagination_stop_amended_witness :
    (fetch_activities_loop
      (fun _ _ => List.replicate 100 (Activity.mk (some 50))) 100 200 100
      1 0 [] []).2 = [0] ∧
    (∃ t, (fetch_activities_loop
      (fun _ _ => List.replicate 100 (Activity.mk (some 150))) 100 200 100
      2 0 [] []).2 = 0 :: 100 :: t) := by
  constructor
  · have h := pagination_stop_amended.1
      (fun _ _ => List.replicate 100 (Activity.mk (some 50))) 100 200 0 0 [] []
      (by decide)
    simpa using h
  · obtain ⟨t, ht⟩ := pagination_stop_amended.2.1
      (fun _ _ => List.replicate 100 (Activity.mk (some 150))) 100 200 0 0 [] []
      (by decide) (by decide)
    exact ⟨t, by simpa using ht⟩

/-- Helper: the row stored at key `k` after a batch upsert is the last
    batch row whose conflict key is `k`, or the previously stored row when
    the batch has none. -/
theorem upsert_batch_get {K Row : Type} [DecidableEq K] (key : Row → K) :
    ∀ (batch : List Row) (t : Table K Row) (k : K),
      Table.get (upsert_batch key t batch) k =
        match batch.reverse.find? (fun r => decide (key r = k)) with
        | some r => some r
        | none => Table.get t k := by
  intro batch
  induction batch with
  | nil => intro t k; rfl
  | cons r bs ih =>
    intro t k
    rw [upsert_batch, List.foldl_cons, List.reverse_cons, List.find?_append]
    have step : upsert_batch key (upsert_row key t r) bs =
        List.foldl (upsert_row key) (upsert_row key t r) bs := rfl
    rw [show List.foldl (upsert_row key) (upsert_row key t r) bs =
      upsert_batch key (upsert_row key t r) bs from rfl, ih]
    cases hfind : bs.reverse.find? (fun r => decide (key r = k)) with
    | some r0 => simp
    | none =>
      simp only [Option.none_orElse]
      rw [Table.get, upsert_row]
      by_cases hk : key r = k
      · simp [hk, List.find?]
      · have : (fun r => decide (key r = k)) r = false := by simpa using hk
        simp [List.find?, this, Table.get]
        intro h
        exact absurd h.symm hk

/-- Helper: batch upserts over a keyed table are idempotent. -/
theorem upsert_batch_idempotent {K Row : Type} [DecidableEq K] (key : Row → K)
    (t : Table K Row) (batch : List Row) :
    upsert_batch key (upsert_batch key t batch) batch = upsert_batch key t batch := by
  funext k
  have h1 := upsert_batch_get key batch (upsert_batch key t batch) k
  have h2 := upsert_batch_get key batch t k
  show Table.get (upsert_batch key (upsert_batch key t batch) batch) k =
    Table.get (upsert_batch key t batch) k
  rw [h1]
  cases hfind : batch.reverse.find? (fun r => decide (key r = k)) with
  | some r0 => rw [h2, hfind]
  | none => rfl

/-- C7 counterexample.  The claim asserts activity upserts are keyed by
    the pair `(user_id, external_id)`.  The source passes
    `on_conflict="activity_id"` (lines 301, 305), so the conflict key is
    the external id alone: upserting a row of user "bob" with activity id
    "X" into a store holding a row of user "alice" with the same activity
    id replaces the alice row — it is gone from the store — whereas under
    the key the claim states both rows would coexist. -/
theorem activity_upsert_key_counterexample :
    Table.get (upsert_batch activity_conflict_key
      (upsert_batch activity_conflict_key (fun _ => none)
        [ActivityRow.mk "alice" "X" .null])
      [ActivityRow.mk "bob" "X" .null]) "X" = some (ActivityRow.mk "bob" "X" .null) ∧
    (∀ k, Table.get (upsert_batch activity_conflict_key
      (upsert_batch activity_conflict_key (fun _ => none)
        [ActivityRow.mk "alice" "X" .null])
      [ActivityRow.mk "bob" "X" .null]) k ≠ some (ActivityRow.mk "alice" "X" .null)) ∧
    Table.get (upsert_batch spec_activity_key
      (upsert_batch spec_activity_key (fun _ => none)
        [ActivityRow.mk "alice" "X" .null])
      [ActivityRow.mk "bob" "X" .null]) ("alice", "X") =
      some (ActivityRow.mk "alice" "X" .null) ∧
    ActivityRow.mk "alice" "X" Json.null ≠ ActivityRow.mk "bob" "X" Json.null := by
  refine ⟨rfl, ?_, rfl, ?_⟩
  · intro k
    show Table.get (upsert_row activity_conflict_key
      (upsert_row activity_conflict_key (fun _ => none)
        (ActivityRow.mk "alice" "X" .null))
      (ActivityRow.mk "bob" "X" .null)) k ≠ some (ActivityRow.mk "alice" "X" .null)
    rw [Table.get, upsert_row]
    simp only [activity_conflict_key]
    by_cases hk : k = "X"
    · rw [if_pos hk]
      intro h
      have := congrArg ActivityRow.user_id (Option.some.inj h)
      exact absurd this (by decide)
    · rw [if_neg hk, upsert_row]
      simp only [activity_conflict_key]
      rw [if_neg hk]
      intro h
      exact Option.noConfusion h
  · intro h
    have := congrArg ActivityRow.user_id h
    exact absurd this (by decide)

/-- C7 amended.  The conflict key for `garmin_activities` is the external
    activity id alone; `garmin_daily` and `garmin_sleep` use
    `(user_id, date)`.  With those keys, rerunning an identical batch of
    upserts leaves every store exactly as it was after the first run, so
    a second run with identical provider responses creates no duplicate
    and changes no row. -/
theorem upsert_idempotent_amended (tA : Table String ActivityRow)
    (bA : List ActivityRow) (tD : Table (String × Int) DailyRow)
    (bD : List DailyRow) (tS : Table (String × Int) DailyRow)
    (bS : List DailyRow) :
    upsert_batch activity_conflict_key
      (upsert_batch activity_conflict_key tA bA) bA =
      upsert_batch activity_conflict_key tA bA ∧
    upsert_batch daily_conflict_key
      (upsert_batch daily_conflict_key tD bD) bD =
      upsert_batch daily_conflict_key tD bD ∧
    upsert_batch daily_conflict_key
      (upsert_batch daily_conflict_key tS bS) bS =
      upsert_batch daily_conflict_key tS bS :=
  ⟨upsert_batch_idempotent activity_conflict_key tA bA,
   upsert_batch_idempotent daily_conflict_key tD bD,
   upsert_batch_idempotent daily_conflict_key tS bS⟩

/-- Helper: every activity-stage progress value is `10 + 40 * i / total`
    for some loop index `i`, and lies between 10 and 49. -/
theorem activity_progress_mem (ta : Nat) (p : Nat)
    (hp : p ∈ activity_progress ta) :
    (∃ i, i < ta ∧ i % 5 = 0 ∧ p = 10 + 40 * i / ta) ∧ 10 ≤ p ∧ p ≤ 49 := by
  rw [activity_progress] at hp
  obtain ⟨i, hi, rfl⟩ := List.mem_map.mp hp
  obtain ⟨hr, hg⟩ := List.mem_filter.mp hi
  rw [List.mem_range] at hr
  have hparts := (Bool.and_eq_true _ _).mp hg
  have h5 : i % 5 = 0 := by simpa using hparts.2
  have hta : 0 < ta := by simpa using hparts.1
  have h40 : 40 * i / ta < 40 := (Nat.div_lt_iff_lt_mul hta).mpr (by omega)
  exact ⟨⟨i, hr, h5, rfl⟩, Nat.le_add_right 10 _,
    Nat.add_le_add_left (Nat.lt_succ_iff.mp h40) 10⟩

/-- Helper: every daily-stage progress value lies between 50 and 89. -/
theorem daily_progress_mem (td : Nat) :
    ∀ q ∈ daily_progress td, 50 ≤ q ∧ q ≤ 89 := by
  intro q hq
  rw [daily_progress] at hq
  obtain ⟨i, hi, rfl⟩ := List.mem_map.mp hq
  obtain ⟨hr, hg⟩ := List.mem_filter.mp hi
  rw [List.mem_range] at hr
  have hparts := (Bool.and_eq_true _ _).mp hg
  have htd : 0 < td := by simpa using hparts.1
  have h40 : 40 * i / td < 40 := (Nat.div_lt_iff_lt_mul htd).mpr (by omega)
  exact ⟨Nat.le_add_right 50 _, Nat.add_le_add_left (Nat.lt_succ_iff.mp h40) 50⟩

/-- Helper: the activity-stage progress values are non-decreasing. -/
theorem activity_progress_sorted (ta : Nat) :
    List.Pairwise (· ≤ ·) (activity_progress ta) := by
  rw [activity_progress, List.pairwise_map]
  refine ((List.pairwise_lt_range ta).filter _).imp ?_
  intro a b hab
  exact Nat.add_le_add_left
    (Nat.div_le_div_right (Nat.mul_le_mul_left 40 (le_of_lt hab))) 10

/-- Helper: the daily-stage progress values are non-decreasing. -/
theorem daily_progress_sorted (td : Nat) :
    List.Pairwise (· ≤ ·) (daily_progress td) := by
  rw [daily_progress, List.pairwise_map]
  refine ((List.pairwise_lt_range td).filter _).imp ?_
  intro a b hab
  exact Nat.add_le_add_left
    (Nat.div_le_div_right (Nat.mul_le_mul_left 40 (le_of_lt hab))) 50

/-- C8: the progress values written through `update_progress` in one
    fully successful run form a non-decreasing sequence ending at 100,
    and every activity-stage value is `10 + floor(40 * i / total)` for
    the loop index `i` that produced it, hence within the reserved
    [10, 50] sub-range. -/
theorem progress_monotone_and_bounded (ta td : Nat) :
    (progress_trace ta td).Sorted (· ≤ ·) ∧
    (progress_trace ta td).getLast? = some 100 ∧
    (∀ p ∈ activity_progress ta,
      (∃ i, i < ta ∧ i % 5 = 0 ∧ p = 10 + 40 * i / ta) ∧ 10 ≤ p ∧ p ≤ 50) := by
  have hA : ∀ p ∈ activity_progress ta, 10 ≤ p ∧ p ≤ 49 :=
    fun p hp => (activity_progress_mem ta p hp).2
  have hD : ∀ q ∈ daily_progress td, 50 ≤ q ∧ q ≤ 89 := daily_progress_mem td
  refine ⟨?_, ?_, ?_⟩
  · show List.Pairwise (· ≤ ·) (progress_trace ta td)
    rw [progress_trace]
    refine List.pairwise_append.mpr ⟨?_, by decide, ?_⟩
    · refine List.pairwise_append.mpr ⟨?_, daily_progress_sorted td, ?_⟩
      · refine List.pairwise_append.mpr ⟨?_, by decide, ?_⟩
        · refine List.pairwise_append.mpr
            ⟨by decide, activity_progress_sorted ta, ?_⟩
          intro a ha b hb
          have hb10 := (hA b hb).1
          have ha10 : a ≤ 10 := by
            simp only [List.mem_cons, List.mem_singleton] at ha
            rcases ha with rfl | rfl | h <;> first | omega | cases h
          omega
        · intro a ha b hb
          have hb50 : b = 50 := by simpa using hb
          have ha49 : a ≤ 49 := by
            rcases List.mem_append.mp ha with ha | ha
            · simp only [List.mem_cons, List.mem_singleton] at ha
              rcases ha with rfl | rfl | h <;> first | omega | cases h
            · exact (hA a ha).2
          omega
      · intro a ha b hb
        have hb50 := (hD b hb).1
        have ha50 : a ≤ 50 := by
          rcases List.mem_append.mp ha with ha | ha
          · rcases List.mem_append.mp ha with ha | ha
            · simp only [List.mem_cons, List.mem_singleton] at ha
              rcases ha with rfl | rfl | h <;> first | omega | cases h
            · have := (hA a ha).2
              omega
          · have : a = 50 := by simpa using ha
            omega
        omega
    · intro a ha b hb
      have hb90 : 90 ≤ b := by
        simp only [List.mem_cons, List.mem_singleton] at hb
        rcases hb with rfl | rfl | rfl | h <;> first | omega | cases h
      have ha89 : a ≤ 89 := by
        rcases List.mem_append.mp ha with ha | ha
        · rcases List.mem_append.mp ha with ha | ha
          · rcases List.mem_append.mp ha with ha | ha
            · simp only [List.mem_cons, List.mem_singleton] at ha
              rcases ha with rfl | rfl | h <;> first | omega | cases h
            · have := (hA a ha).2
              omega
          · have : a = 50 := by simpa using ha
            omega
        · have := (hD a ha).2
          omega
      omega
  · rw [progress_trace]
    exact (List.getLast?_append_of_ne_nil _ (by simp)).trans rfl
  · intro p hp
    obtain ⟨hex, h10, h49⟩ := activity_progress_mem ta p hp
    exact ⟨hex, h10, by omega⟩

/-- C8 witness: with 7 activities and 3 days, the trace
    `[5, 10, 10, 38, 50, 50, 90, 95, 100]` is non-decreasing, ends at
    100, and the value 38 is `10 + floor(40 * 5 / 7)` for index 5. -/
theorem progress_monotone_and_bounded_witness :
    (progress_trace 7 3).Sorted (· ≤ ·) ∧
    (progress_trace 7 3).getLast? = some 100 ∧
    ((∃ i, i < 7 ∧ i % 5 = 0 ∧ 38 = 10 + 40 * i / 7) ∧ 10 ≤ 38 ∧ 38 ≤ 50) := by
  have h := progress_monotone_and_bounded 7 3
  exact ⟨h.1, h.2.1, h.2.2 38 (by decide)⟩

/-- Helper: when the key is present, the in-place update of `setKey` is
    what a lookup finds. -/
theorem dictGet_map_set (kvs : List (String × Json)) (k : String) (v : Json)
    (h : kvs.any (fun p => p.1 == k) = true) :
    dictGet (kvs.map (fun p => if p.1 == k then (k, v) else p)) k = some v := by
  induction kvs with
  | nil => simp at h
  | cons q rest ih =>
    rw [List.map_cons]
    by_cases hq : (q.1 == k) = true
    · rw [if_pos hq, dictGet, List.find?_cons_of_pos _ (by simp)]
      rfl
    · rw [if_neg hq, dictGet, List.find?_cons_of_neg _ (by simpa using hq)]
      rw [List.any_cons] at h
      simp only [Bool.or_eq_true] at h
      rcases h with hq2 | hrest
      · exact absurd hq2 hq
      · exact ih hrest

/-- Helper: `setKey` makes the assigned key read back the assigned
    value. -/
theorem dictGet_setKey_self (kvs : List (String × Json)) (k : String) (v : Json) :
    dictGet (setKey kvs k v) k = some v := by
  rw [setKey]
  by_cases h : kvs.any (fun p => p.1 == k) = true
  · rw [if_pos h]
    exact dictGet_map_set kvs k v h
  · rw [if_neg h, dictGet, List.find?_append]
    have hnone : kvs.find? (fun p => p.1 == k) = none := by
      rw [List.find?_eq_none]
      intro x hx
      intro hx2
      exact h (List.any_eq_true.mpr ⟨x, hx, hx2⟩)
    rw [hnone, Option.none_or]
    simp [List.find?_cons]

/-- Helper: `setKey` leaves every other key unchanged. -/
theorem dictGet_setKey_other (kvs : List (String × Json)) (k k2 : String)
    (v : Json) (hne : k2 ≠ k) :
    dictGet (setKey kvs k v) k2 = dictGet kvs k2 := by
  have hkk : (k == k2) = false := by
    simp only [beq_eq_false_iff_ne, ne_eq]
    exact fun hh => hne hh.symm
  rw [setKey]
  by_cases h : kvs.any (fun p => p.1 == k) = true
  · rw [if_pos h]
    clear h
    induction kvs with
    | nil => rfl
    | cons q rest ih =>
      rw [List.map_cons, dictGet, dictGet]
      simp only [List.find?_cons]
      by_cases hq : (q.1 == k) = true
      · have hqk : q.1 = k := by simpa using hq
        rw [if_pos hq]
        simp only [hqk, hkk]
        exact ih
      · rw [if_neg hq]
        cases hq2 : q.1 == k2 with
        | true => simp only [hq2]
        | false =>
          simp only [hq2]
          exact ih
  · rw [if_neg h, dictGet, dictGet, List.find?_append]
    cases hf : kvs.find? (fun p => p.1 == k2) with
    | some p => rfl
    | none =>
      rw [Option.none_or]
      simp only [List.find?_cons, hkk]
      rfl

/-- C10: `update_progress` never raises (it is a total function whose
    failure paths return the stored state unchanged); a failed read or a
    failed write leaves the database untouched, as does an empty user
    lookup; and a successful call replaces exactly the `goals` column
    with the old goals object (null coalesced to empty) carrying
    `sync_progress := p`, leaving every other key of `goals` and every
    other column of the user row unchanged. -/
theorem update_progress_frame (r w : Bool) (db : Option UserRow) (p : Int)
    (row : UserRow) :
    update_progress false w db p = db ∧
    update_progress r false db p = db ∧
    update_progress r w none p = none ∧
    update_progress true true (some row) p =
      some { row with
             goals := some (setKey (row.goals.getD [])
               "sync_progress" (.num p)) } ∧
    dictGet (setKey (row.goals.getD []) "sync_progress" (.num p))
      "sync_progress" = some (.num p) ∧
    (∀ k, k ≠ "sync_progress" →
      dictGet (setKey (row.goals.getD []) "sync_progress" (.num p)) k =
        dictGet (row.goals.getD []) k) := by
  refine ⟨rfl, ?_, ?_, rfl, dictGet_setKey_self _ _ _, ?_⟩
  · cases r <;> cases db <;> rfl
  · cases r <;> cases w <;> rfl
  · intro k hk
    exact dictGet_setKey_other _ _ _ _ hk

/-- C10 witness: on a concrete row holding a goals object with a
    watermark key, a failed read leaves the row unchanged, and a
    successful call rewrites only `sync_progress`, preserving the
    watermark key and the other columns. -/
theorem update_progress_frame_witness :
    update_progress false true
      (some { goals := some [("garmin_last_synced", .str "2024-01-01")],
              garmin_sync_status := some "synced",
              garmin_last_sync_error := none, rest := .null }) 7 =
      some { goals := some [("garmin_last_synced", .str "2024-01-01")],
             garmin_sync_status := some "synced",
             garmin_last_sync_error := none, rest := .null } ∧
    update_progress true true
      (some { goals := some [("garmin_last_synced", .str "2024-01-01")],
              garmin_sync_status := some "synced",
              garmin_last_sync_error := none, rest := .null }) 7 =
      some { goals := some [("garmin_last_synced", .str "2024-01-01"),
                            ("sync_progress", .num 7)],
             garmin_sync_status := some "synced",
             garmin_last_sync_error := none, rest := .null } ∧
    dictGet (setKey [("garmin_last_synced", Json.str "2024-01-01")]
      "sync_progress" (.num 7)) "garmin_last_synced" =
      dictGet [("garmin_last_synced", Json.str "2024-01-01")]
        "garmin_last_synced" := by
  have h := update_progress_frame true true
    (some { goals := some [("garmin_last_synced", .str "2024-01-01")],
            garmin_sync_status := some "synced",
            garmin_last_sync_error := none, rest := .null }) 7
    { goals := some [("garmin_last_synced", .str "2024-01-01")],
      garmin_sync_status := some "synced",
      garmin_last_sync_error := none, rest := .null }
  exact ⟨h.1, h.2.2.2.1, h.2.2.2.2.2 "garmin_last_synced" (by decide)⟩
